import Mathlib

/-!
Verification of the Allium supervisor daemon (src/alliumd/src/alliumd.rs).

This file gives a shallow embedding of the daemon's data model and operations:
the persisted state store (AlliumDState::new/load/save), the input gesture
recognizer and dispatcher (AlliumD::handle_key_event), the quit sequence
(AlliumD::handle_quit), the volume/brightness adjustments (add_volume,
add_brightness), the play-time recording (update_play_time), the signaling
helper (signal), and the multiplexed event loop (run_event_loop) as a step
function over daemon states with an explicit action trace modelling the
side effects performed on the platform, the filesystem and child processes.

Modelling conventions:
* Timestamps (chrono DateTime of Utc) are integers counting nanoseconds since
  the epoch; chrono carries nanosecond precision and its serde round-trip is
  exact, while formatting with the pattern used for the `date -s` command
  prints whole seconds only.
* Machine integers are embedded as Int with two's-complement wrapping made
  explicit where an overflow could occur (i32 addition in add_volume, i8
  conversion and addition in add_brightness), matching release-build
  semantics; the daemon itself only ever passes the deltas 1, -1, 5, -5.
* Side effects (platform calls, signals, process spawns, file writes) are
  recorded as an Action list in the order the source performs them.
* Each event-loop arm runs to completion before the next event is examined
  (tokio::select in a single task), so a process exit and the handler that
  reacts to it form one atomic step of the model.
-/

namespace Allium

/-- Modelled from the spec: the closed Key enumeration of common::platform
(not under src/). The spec lists Menu, Start, Select, VolUp, VolDown, L2, R2,
Power and elides the remaining buttons; two further buttons a and b stand for
the elided rest. -/
inductive Key
  | menu | start | select | volUp | volDown | l2 | r2 | power | a | b
deriving DecidableEq

/-- All keys, one per constructor: the EnumMap of the source is a total map,
iterated here as this list. -/
def Key.all : List Key :=
  [.menu, .start, .select, .volUp, .volDown, .l2, .r2, .power, .a, .b]

/-- Raw key transition events delivered by Platform::poll. -/
inductive KeyEvent
  | pressed (k : Key)
  | released (k : Key)
  | autorepeat (k : Key)
deriving DecidableEq

/-- Modelled from the spec: the game record of common::game_info (not under
src/). Only the fields the daemon reads are kept: the game identifier (path),
the has_menu flag and the accumulated play time returned by play_time(). -/
structure GameInfo where
  path : String
  has_menu : Bool
  play_time : Int
deriving DecidableEq

/-- Persisted daemon state (struct AlliumDState): timestamp in nanoseconds,
volume (an i32) and brightness (a u8, kept as Nat). -/
structure AlliumDState where
  time : Int
  volume : Int
  brightness : Nat
deriving DecidableEq

/-- Run-state of the single main child process. -/
inductive MainStatus
  | running | suspended | exited
deriving DecidableEq

/-- Observable side effects of the daemon, in program order: platform calls,
file operations and the process-control operations on the two children. -/
inductive Action
  | setVolume (v : Int)
  | setBrightness (b : Nat)
  | saveState (st : AlliumDState)
  | setClock (t : Int)
  | removeStateFile
  | addPlayTime (path : String) (t : Int)
  | deleteGameInfo
  | spawnMain
  | spawnMenu
  | sigstopMain
  | sigcontMain
  | sigtermMain
  | waitMain
  | sigtermMenu
  | waitMenu
  | killMenu
  | shutdownPlatform
deriving DecidableEq

/-- Contents of the state file at ALLIUMD_STATE as AlliumDState::load finds
them: missing, unreadable (fs::read_to_string fails), present but not valid
JSON, or parseable into a state record. -/
inductive FileContents
  | absent
  | unreadable
  | unparseable
  | parseable (s : AlliumDState)
deriving DecidableEq

/-- AlliumDState::new — the defaults: timestamp now, volume 0, brightness 50. -/
def AlliumDState.new (now : Int) : AlliumDState :=
  { time := now, volume := 0, brightness := 50 }

/-- Truncation of a nanosecond timestamp to a whole second: the source formats
the stored time with a date-plus-seconds pattern before handing it to the
`date -s` command, so the sub-second part is dropped. -/
def truncSec (t : Int) : Int := t - t % 1000000000

/-- AlliumDState::load — returns the loaded or default state together with the
side effects performed: if the file is missing, defaults; if unreadable or
unparseable, the file is removed and defaults are returned (the parse failure
itself is swallowed, never returned); if parseable and the stored time is
later than the clock, a `date -s` command is spawned with the stored time
formatted to whole seconds. -/
def AlliumDState.load (file : FileContents) (now : Int) :
    AlliumDState × List Action :=
  match file with
  | .parseable s =>
      if now < s.time then (s, [Action.setClock (truncSec s.time)])
      else (s, [])
  | .absent => (AlliumDState.new now, [])
  | .unreadable => (AlliumDState.new now, [Action.removeStateFile])
  | .unparseable => (AlliumDState.new now, [Action.removeStateFile])

/-- AlliumDState::save — serializes the record to the state file; the serde
JSON round-trip of these fields is exact, so the written file parses back to
the same record. -/
def AlliumDState.save (s : AlliumDState) : FileContents :=
  .parseable s

/-- In-memory daemon state (struct AlliumD). The single main child is the
MainStatus slot, the optional menu child is the Option slot — holding at most
one of each is built into the type, as in the source. The shutdown flag is a
model artifact marking that platform.shutdown() has run and the daemon is
gone; it is not a field of the Rust struct. -/
structure AlliumD where
  main : MainStatus
  menu : Option Unit
  keys : Key → Bool
  is_menu_pressed_alone : Bool
  is_terminating : Bool
  state : AlliumDState
  shutdown : Bool

/-- AlliumD::new — main freshly spawned (running), no menu, no key held,
flags clear, state as loaded. -/
def AlliumD.new (st : AlliumDState) : AlliumD :=
  { main := .running
    menu := none
    keys := fun _ => false
    is_menu_pressed_alone := false
    is_terminating := false
    state := st
    shutdown := false }

/-- Lines 134-135 of run_event_loop: on startup the loaded volume and
brightness are handed to the platform unaltered. -/
def startup_actions (st : AlliumDState) : List Action :=
  [Action.setVolume st.volume, Action.setBrightness st.brightness]

/-- Rust's clamp on integers: below lo gives lo, above hi gives hi. -/
def clampI (lo hi x : Int) : Int :=
  if x < lo then lo else if hi < x then hi else x

/-- Two's-complement wrap of an integer into the i32 range. -/
def wrap32 (x : Int) : Int := (x + 2147483648) % 4294967296 - 2147483648

/-- Two's-complement wrap of an integer into the i8 range. -/
def wrap8 (x : Int) : Int := (x + 128) % 256 - 128

/-- The `as i8` conversion of a u8 value: values at 128 and above become
negative. -/
def u8_as_i8 (b : Nat) : Int :=
  if b < 128 then (b : Int) else (b : Int) - 256

/-- AlliumD::add_volume — the i32 sum (wrapping, as in a release build) is
clamped into 0..=20, stored, and pushed to the platform. -/
def add_volume (a : Int) (s : AlliumD) : AlliumD × List Action :=
  let v := clampI 0 20 (wrap32 (s.state.volume + a))
  ({ s with state := { s.state with volume := v } }, [Action.setVolume v])

/-- AlliumD::add_brightness — the stored u8 is converted `as i8`, the i8 sum
(wrapping, as in a release build) is clamped into 0..=100, converted back
`as u8`, stored, and pushed to the platform. -/
def add_brightness (a : Int) (s : AlliumD) : AlliumD × List Action :=
  let b := (clampI 0 100 (wrap8 (u8_as_i8 s.state.brightness + a))).toNat
  ({ s with state := { s.state with brightness := b } },
   [Action.setBrightness b])

/-- AlliumD::is_ingame — the game-info file exists; the Option GameInfo
argument models that file (None when absent). -/
def is_ingame (gi : Option GameInfo) : Bool := gi.isSome

/-- AlliumD::update_play_time — a no-op when not in-game; otherwise the
game record is read and its play time recorded in the database. -/
def update_play_time (gi : Option GameInfo) : List Action :=
  match gi with
  | none => []
  | some g => [Action.addPlayTime g.path g.play_time]

/-- AlliumD::handle_quit — stamp the state with the current time and save it,
record play time, kill the menu child if present (the slot itself is not
cleared), and when in-game resume main first if a menu is active, then send
the graceful terminate and block until main is reaped; finally shut the
platform down. -/
def handle_quit (gi : Option GameInfo) (now : Int) (s : AlliumD) :
    AlliumD × List Action :=
  let st : AlliumDState := { s.state with time := now }
  let menuKill : List Action :=
    match s.menu with
    | some _ => [Action.killMenu]
    | none => []
  let mainStep : MainStatus × List Action :=
    if is_ingame gi then
      (MainStatus.exited,
        (match s.menu with
         | some _ => [Action.sigcontMain]
         | none => []) ++ [Action.sigtermMain, Action.waitMain])
    else (s.main, [])
  ({ s with state := st, main := mainStep.1, shutdown := true },
   Action.saveState st ::
     (update_play_time gi ++ menuKill ++ mainStep.2 ++ [Action.shutdownPlatform]))

/-- Effect of SIGSTOP on the main child: a live process becomes suspended. -/
def sigstopEffect : MainStatus → MainStatus
  | .exited => .exited
  | _ => .suspended

/-- Effect of SIGCONT on the main child: a live process becomes running. -/
def sigcontEffect : MainStatus → MainStatus
  | .exited => .exited
  | _ => .running

/-- First match of handle_key_event: Pressed(Menu) sets
is_menu_pressed_alone, any other Pressed clears it, Released and Autorepeat
leave it unchanged. Note the flag is set on every Pressed(Menu), with no look
at which other keys are currently held. -/
def recognizerUpdate (e : KeyEvent) (s : AlliumD) : AlliumD :=
  match e with
  | .pressed .menu => { s with is_menu_pressed_alone := true }
  | .pressed _ => { s with is_menu_pressed_alone := false }
  | .released _ => s
  | .autorepeat _ => s

/-- Second match of handle_key_event: the pressed-key map is updated; Pressed
sets, Released clears, Autorepeat leaves the map unchanged. -/
def keysUpdate (e : KeyEvent) (s : AlliumD) : AlliumD :=
  match e with
  | .pressed k => { s with keys := Function.update s.keys k true }
  | .released k => { s with keys := Function.update s.keys k false }
  | .autorepeat _ => s

/-- The all-other-keys-released check of the Released(Menu) arm:
keys.iter().all(k == Menu or not pressed). -/
def noOtherKeyHeld (keys : Key → Bool) : Bool :=
  Key.all.all fun k => decide (k = Key.menu) || !keys k

/-- Third match of handle_key_event: chord dispatch, quit on Autorepeat
(Power), and the menu-toggle gesture on Released(Menu). The arms appear in
source order; the Option GameInfo argument models the game-info file read by
is_ingame and GameInfo::load within the handler. -/
def dispatch (gi : Option GameInfo) (now : Int) (e : KeyEvent) (s : AlliumD) :
    AlliumD × List Action :=
  match e with
  | .pressed .l2 | .autorepeat .l2 =>
      if s.keys Key.start then add_brightness (-5) s
      else if s.keys Key.select then add_volume (-1) s
      else (s, [])
  | .pressed .r2 | .autorepeat .r2 =>
      if s.keys Key.start then add_brightness 5 s
      else if s.keys Key.select then add_volume 1 s
      else (s, [])
  | .pressed .volDown | .autorepeat .volDown =>
      if s.keys Key.menu then add_brightness (-5) s else add_volume (-1) s
  | .pressed .volUp | .autorepeat .volUp =>
      if s.keys Key.menu then add_brightness 5 s else add_volume 1 s
  | .autorepeat .power =>
      handle_quit gi now { s with is_terminating := true }
  | .pressed .menu => ({ s with is_menu_pressed_alone := true }, [])
  | .released .menu =>
      if s.is_menu_pressed_alone then
        if is_ingame gi && noOtherKeyHeld s.keys then
          match gi with
          | some game_info =>
              match s.menu with
              | some _ =>
                  ({ s with is_menu_pressed_alone := false },
                   [Action.sigtermMenu, Action.waitMenu])
              | none =>
                  if game_info.has_menu then
                    ({ s with
                        main := sigstopEffect s.main
                        menu := some ()
                        is_menu_pressed_alone := false },
                     [Action.sigstopMain, Action.spawnMenu])
                  else ({ s with is_menu_pressed_alone := false }, [])
          | none => ({ s with is_menu_pressed_alone := false }, [])
        else ({ s with is_menu_pressed_alone := false }, [])
      else (s, [])
  | _ => (s, [])

/-- AlliumD::handle_key_event — the three matches run in sequence on the same
incoming event: recognizer flag, key map, then dispatch. -/
def handle_key_event (gi : Option GameInfo) (now : Int) (e : KeyEvent)
    (s : AlliumD) : AlliumD × List Action :=
  dispatch gi now e (keysUpdate e (recognizerUpdate e s))

/-- Modelled from the spec: BATTERY_SHUTDOWN_THRESHOLD lives in
common::constants (not under src/); the claims do not depend on its value,
only on it being a fixed threshold. -/
def BATTERY_SHUTDOWN_THRESHOLD : Nat := 10

/-- One arrival on a source of the tokio::select wait set: a key event, the
main child exiting on its own, the menu child having exited, an OS
termination signal, a battery tick, or the auto-sleep timeout. Environment
data read during the handling (game-info file, clock, battery reading) ride
on the event. -/
inductive Event
  | key (gi : Option GameInfo) (now : Int) (e : KeyEvent)
  | mainExited (gi : Option GameInfo)
  | menuExited
  | sigintRecv (gi : Option GameInfo) (now : Int)
  | sigtermRecv (gi : Option GameInfo) (now : Int)
  | batteryTick (pct : Nat) (charging : Bool) (gi : Option GameInfo) (now : Int)
  | autoSleep (charging : Bool) (gi : Option GameInfo) (now : Int)

/-- One iteration of run_event_loop: the ready arm runs to completion. The
main-exit arm records play time, deletes the game record and respawns main
unless the daemon is terminating; the menu-exit arm clears the slot and
resumes main; termination signals, a low battery while not charging, and the
auto-sleep timeout while not charging run the quit sequence. -/
def stepf (s : AlliumD) (e : Event) : AlliumD × List Action :=
  match e with
  | .key gi now ke => handle_key_event gi now ke s
  | .mainExited gi =>
      if s.is_terminating then ({ s with main := MainStatus.exited }, [])
      else
        ({ s with main := MainStatus.running },
         update_play_time gi ++ [Action.deleteGameInfo, Action.spawnMain])
  | .menuExited =>
      ({ s with menu := none, main := sigcontEffect s.main },
       [Action.sigcontMain])
  | .sigintRecv gi now => handle_quit gi now s
  | .sigtermRecv gi now => handle_quit gi now s
  | .batteryTick pct charging gi now =>
      if pct ≤ BATTERY_SHUTDOWN_THRESHOLD && !charging then
        handle_quit gi now s
      else (s, [])
  | .autoSleep charging gi now =>
      if !charging then handle_quit gi now s else (s, [])

/-- Which events can arrive in a state: none after shutdown; the main-exit
source is ready only while the main process runs (a suspended process cannot
exit on its own, and an exited one was already handled); the menu-exit source
is in the wait set only while the menu slot is occupied. -/
def enabled (s : AlliumD) (e : Event) : Bool :=
  !s.shutdown &&
    match e with
    | .mainExited _ =>
        match s.main with
        | .running => true
        | _ => false
    | .menuExited => s.menu.isSome
    | _ => true

/-- Daemon states reachable from startup by enabled event-loop iterations. -/
inductive Reachable : AlliumD → Prop
  | init (st : AlliumDState) : Reachable (AlliumD.new st)
  | next (s : AlliumD) (e : Event) (hs : Reachable s)
      (he : enabled s e = true) : Reachable (stepf s e).1

/-- The supervisor invariant on live states: the daemon is not in a
terminating sequence, an occupied menu slot means main is suspended, and an
empty menu slot means main is running. -/
def Inv (s : AlliumD) : Prop :=
  s.shutdown = false →
    s.is_terminating = false
      ∧ (s.menu.isSome → s.main = MainStatus.suspended)
      ∧ (s.menu = none → s.main = MainStatus.running)

/-- Run-state of a child process as the OS sees it; a zombie has exited but
keeps its process-table entry until reaped. -/
inductive ProcStatus
  | running | suspended | zombie | reaped
deriving DecidableEq

/-- A tokio child-process handle: the pid, and the state of the process. -/
structure Child where
  pid : Nat
  status : ProcStatus
deriving DecidableEq

/-- The process-control signals the daemon sends: suspend, resume, graceful
terminate. -/
inductive Signal
  | sigstop | sigcont | sigterm
deriving DecidableEq

/-- tokio Child::id — None once the child has been reaped by a wait on this
handle. -/
def Child.id (c : Child) : Option Nat :=
  match c.status with
  | .reaped => none
  | _ => some c.pid

/-- Whether a pid resolves to a process-table entry: true for running,
suspended and zombie processes, false once the process has been reaped. -/
def pid_exists : ProcStatus → Bool
  | .reaped => false
  | _ => true

/-- nix kill — succeeds for any existing process (including a zombie, which
silently discards the signal); fails with ESRCH if the pid does not exist. -/
def kill (target : ProcStatus) (_sg : Signal) : Except Unit Unit :=
  if pid_exists target then Except.ok () else Except.error ()

/-- The signal helper of alliumd.rs: look up the child's id, and send the
signal only when the id is still known; errors from kill propagate. The
returned list collects the log messages emitted inside the function — the
source body contains no log call, so it is always empty. -/
def signal (child : Child) (sg : Signal) : Except Unit (List String) :=
  match child.id with
  | some _ =>
      match kill child.status sg with
      | .ok _ => Except.ok []
      | .error e => Except.error e
  | none => Except.ok []

/-- A single settings adjustment as dispatched by the gesture recognizer. -/
inductive Adjust
  | vol (a : Int)
  | bright (a : Int)

/-- Apply one adjustment to the daemon state (dropping the platform call). -/
def applyAdjust (s : AlliumD) : Adjust → AlliumD
  | .vol a => (add_volume a s).1
  | .bright a => (add_brightness a s).1

/-! Helper lemmas. -/

/-- The invariant only looks at four fields, so it transports along states
that agree on them. -/
theorem inv_congr (t s : AlliumD) (h : Inv s)
    (hm : t.main = s.main) (hn : t.menu = s.menu)
    (ht : t.is_terminating = s.is_terminating)
    (hd : t.shutdown = s.shutdown) : Inv t := by
  unfold Inv at h ⊢
  rw [hm, hn, ht, hd]
  exact h

/-- Any state already shut down satisfies the invariant vacuously. -/
theorem inv_of_shutdown (t : AlliumD) (h : t.shutdown = true) : Inv t := by
  intro hf
  rw [h] at hf
  exact absurd hf (by decide)

/-- The recognizer phase touches only the is_menu_pressed_alone flag. -/
theorem recognizerUpdate_fields (e : KeyEvent) (s : AlliumD) :
    (recognizerUpdate e s).main = s.main
      ∧ (recognizerUpdate e s).menu = s.menu
      ∧ (recognizerUpdate e s).is_terminating = s.is_terminating
      ∧ (recognizerUpdate e s).shutdown = s.shutdown := by
  cases e with
  | pressed k => cases k <;> exact ⟨rfl, rfl, rfl, rfl⟩
  | released k => exact ⟨rfl, rfl, rfl, rfl⟩
  | autorepeat k => exact ⟨rfl, rfl, rfl, rfl⟩

/-- The key-map phase touches only the keys map. -/
theorem keysUpdate_fields (e : KeyEvent) (s : AlliumD) :
    (keysUpdate e s).main = s.main
      ∧ (keysUpdate e s).menu = s.menu
      ∧ (keysUpdate e s).is_terminating = s.is_terminating
      ∧ (keysUpdate e s).shutdown = s.shutdown := by
  cases e <;> exact ⟨rfl, rfl, rfl, rfl⟩

/-- Clamping lands in the interval whenever the bounds are ordered. -/
theorem clampI_mem (lo hi x : Int) (h : lo ≤ hi) :
    lo ≤ clampI lo hi x ∧ clampI lo hi x ≤ hi := by
  unfold clampI
  split
  · omega
  · split <;> omega

/-- add_volume leaves every field but the stored volume unchanged, and the
new volume is the clamp of the wrapped sum. -/
theorem add_volume_spec (a : Int) (s : AlliumD) :
    (add_volume a s).1 =
      { s with state :=
        { s.state with volume := clampI 0 20 (wrap32 (s.state.volume + a)) } }
      ∧ (add_volume a s).2 =
        [Action.setVolume (clampI 0 20 (wrap32 (s.state.volume + a)))] :=
  ⟨rfl, rfl⟩

/-- add_brightness leaves every field but the stored brightness unchanged,
and the new brightness is the clamp of the wrapped i8 sum. -/
theorem add_brightness_spec (a : Int) (s : AlliumD) :
    (add_brightness a s).1 =
      { s with state :=
        { s.state with brightness :=
          (clampI 0 100 (wrap8 (u8_as_i8 s.state.brightness + a))).toNat } }
      ∧ (add_brightness a s).2 =
        [Action.setBrightness
          (clampI 0 100 (wrap8 (u8_as_i8 s.state.brightness + a))).toNat] :=
  ⟨rfl, rfl⟩

/-- The volume stored by add_volume is inside 0..=20. -/
theorem add_volume_range (a : Int) (s : AlliumD) :
    0 ≤ (add_volume a s).1.state.volume
      ∧ (add_volume a s).1.state.volume ≤ 20 := by
  have h := clampI_mem 0 20 (wrap32 (s.state.volume + a)) (by omega)
  exact h

/-- The brightness stored by add_brightness is inside 0..=100. -/
theorem add_brightness_range (a : Int) (s : AlliumD) :
    (add_brightness a s).1.state.brightness ≤ 100 := by
  have h := clampI_mem 0 100 (wrap8 (u8_as_i8 s.state.brightness + a)) (by omega)
  show (clampI 0 100 (wrap8 (u8_as_i8 s.state.brightness + a))).toNat ≤ 100
  omega


/-- If no key other than Menu is reported held, the all-released check of the
Released(Menu) arm passes (the map is consulted after Menu itself was cleared
by the key-map phase). -/
theorem noOtherKeyHeld_of (keys : Key → Bool)
    (h : ∀ k, ¬ k = Key.menu → keys k = false) :
    noOtherKeyHeld (Function.update keys Key.menu false) = true := by
  rw [noOtherKeyHeld, List.all_eq_true]
  intro k _
  by_cases hk : k = Key.menu
  · subst hk
    simp
  · simp [hk, Function.update_noteq hk, h k hk]

/-- Dispatch preserves the supervisor invariant. -/
theorem dispatch_inv (gi : Option GameInfo) (now : Int) (e : KeyEvent)
    (s : AlliumD) (h : Inv s) : Inv (dispatch gi now e s).1 := by
  have hcong : ∀ t : AlliumD, t.main = s.main → t.menu = s.menu →
      t.is_terminating = s.is_terminating → t.shutdown = s.shutdown → Inv t :=
    fun t hm hn ht hd => inv_congr t s h hm hn ht hd
  cases e with
  | pressed k =>
    cases k with
    | menu => exact hcong _ rfl rfl rfl rfl
    | start => exact hcong _ rfl rfl rfl rfl
    | select => exact hcong _ rfl rfl rfl rfl
    | volUp =>
      simp only [dispatch]
      split
      · exact hcong _ rfl rfl rfl rfl
      · exact hcong _ rfl rfl rfl rfl
    | volDown =>
      simp only [dispatch]
      split
      · exact hcong _ rfl rfl rfl rfl
      · exact hcong _ rfl rfl rfl rfl
    | l2 =>
      simp only [dispatch]
      split
      · exact hcong _ rfl rfl rfl rfl
      · split
        · exact hcong _ rfl rfl rfl rfl
        · exact h
    | r2 =>
      simp only [dispatch]
      split
      · exact hcong _ rfl rfl rfl rfl
      · split
        · exact hcong _ rfl rfl rfl rfl
        · exact h
    | power => exact h
    | a => exact hcong _ rfl rfl rfl rfl
    | b => exact hcong _ rfl rfl rfl rfl
  | released k =>
    cases k with
    | menu =>
      by_cases hf : s.is_menu_pressed_alone = true
      · by_cases hc : (is_ingame gi && noOtherKeyHeld s.keys) = true
        · cases gi with
          | none =>
            simp [dispatch, hf, hc]
            exact hcong _ rfl rfl rfl rfl
          | some g =>
            cases hm : s.menu with
            | some u =>
              simp [dispatch, hf, hc, hm]
              exact hcong _ rfl hm.symm rfl rfl
            | none =>
              by_cases hb : g.has_menu = true
              · simp [dispatch, hf, hc, hm, hb]
                intro hsd
                have hsd2 : s.shutdown = false := hsd
                obtain ⟨hterm, _h1, h2⟩ := h hsd2
                refine ⟨hterm, ?_, ?_⟩
                · intro _
                  show sigstopEffect s.main = MainStatus.suspended
                  rw [h2 hm]
                  rfl
                · intro hcontra
                  have hcontra2 : (some () : Option Unit) = none := hcontra
                  simp at hcontra2
              · simp [dispatch, hf, hc, hm, hb]
                exact hcong _ rfl hm.symm rfl rfl
        · simp [dispatch, hf, hc]
          exact hcong _ rfl rfl rfl rfl
      · simp [dispatch, hf]
        exact h
    | start => exact h
    | select => exact h
    | volUp => exact h
    | volDown => exact h
    | l2 => exact h
    | r2 => exact h
    | power => exact h
    | a => exact h
    | b => exact h
  | autorepeat k =>
    cases k with
    | menu => exact h
    | start => exact h
    | select => exact h
    | volUp =>
      simp only [dispatch]
      split
      · exact hcong _ rfl rfl rfl rfl
      · exact hcong _ rfl rfl rfl rfl
    | volDown =>
      simp only [dispatch]
      split
      · exact hcong _ rfl rfl rfl rfl
      · exact hcong _ rfl rfl rfl rfl
    | l2 =>
      simp only [dispatch]
      split
      · exact hcong _ rfl rfl rfl rfl
      · split
        · exact hcong _ rfl rfl rfl rfl
        · exact h
    | r2 =>
      simp only [dispatch]
      split
      · exact hcong _ rfl rfl rfl rfl
      · split
        · exact hcong _ rfl rfl rfl rfl
        · exact h
    | power => exact inv_of_shutdown _ rfl
    | a => exact h
    | b => exact h

/-- The whole key handler preserves the supervisor invariant. -/
theorem handle_key_event_inv (gi : Option GameInfo) (now : Int) (e : KeyEvent)
    (s : AlliumD) (h : Inv s) : Inv (handle_key_event gi now e s).1 := by
  obtain ⟨r1, r2, r3, r4⟩ := recognizerUpdate_fields e s
  have h1 : Inv (recognizerUpdate e s) := inv_congr _ s h r1 r2 r3 r4
  obtain ⟨q1, q2, q3, q4⟩ := keysUpdate_fields e (recognizerUpdate e s)
  have h2 : Inv (keysUpdate e (recognizerUpdate e s)) :=
    inv_congr _ _ h1 q1 q2 q3 q4
  exact dispatch_inv gi now e _ h2

/-- Every enabled event-loop iteration preserves the supervisor invariant. -/
theorem inv_step (s : AlliumD) (e : Event) (h : Inv s)
    (he : enabled s e = true) : Inv (stepf s e).1 := by
  cases e with
  | key gi now ke => exact handle_key_event_inv gi now ke s h
  | mainExited gi =>
    simp only [enabled, Bool.and_eq_true] at he
    obtain ⟨he1, he2⟩ := he
    have hsd : s.shutdown = false := by
      cases hv : s.shutdown
      · rfl
      · rw [hv] at he1
        exact absurd he1 (by decide)
    have hrun : s.main = MainStatus.running := by
      cases hm : s.main
      · rfl
      · rw [hm] at he2
        exact absurd he2 (by decide)
      · rw [hm] at he2
        exact absurd he2 (by decide)
    obtain ⟨hterm, hmenu1, _hmenu2⟩ := h hsd
    have hmenu : s.menu = none := by
      cases hmn : s.menu with
      | none => rfl
      | some u =>
        have hx := hmenu1 (by rw [hmn]; rfl)
        rw [hrun] at hx
        exact absurd hx (by decide)
    simp only [stepf]
    split
    · next hcond =>
      rw [hterm] at hcond
      exact absurd hcond (by decide)
    · intro _
      refine ⟨hterm, ?_, fun _ => rfl⟩
      intro hx
      have hx2 : s.menu.isSome = true := hx
      rw [hmenu] at hx2
      exact absurd hx2 (by decide)
  | menuExited =>
    simp only [enabled, Bool.and_eq_true] at he
    obtain ⟨he1, he2⟩ := he
    have hsd : s.shutdown = false := by
      cases hv : s.shutdown
      · rfl
      · rw [hv] at he1
        exact absurd he1 (by decide)
    obtain ⟨hterm, hmenu1, _⟩ := h hsd
    have hsub : s.main = MainStatus.suspended := hmenu1 he2
    simp only [stepf]
    intro _
    refine ⟨hterm, ?_, ?_⟩
    · intro hx
      have hx2 : (none : Option Unit).isSome = true := hx
      exact absurd hx2 (by decide)
    · intro _
      show sigcontEffect s.main = MainStatus.running
      rw [hsub]
      rfl
  | sigintRecv gi now => exact inv_of_shutdown _ rfl
  | sigtermRecv gi now => exact inv_of_shutdown _ rfl
  | batteryTick pct charging gi now =>
    simp only [stepf]
    split
    · exact inv_of_shutdown _ rfl
    · exact h
  | autoSleep charging gi now =>
    simp only [stepf]
    split
    · exact inv_of_shutdown _ rfl
    · exact h

/-- Every reachable daemon state satisfies the supervisor invariant. -/
theorem reachable_inv (s : AlliumD) (h : Reachable s) : Inv s := by
  induction h with
  | init st =>
    intro _
    refine ⟨rfl, ?_, fun _ => rfl⟩
    intro hx
    have hx2 : (none : Option Unit).isSome = true := hx
    exact absurd hx2 (by decide)
  | next s e hs he ih => exact inv_step s e ih he

/-- Handling Released(Menu) always leaves is_menu_pressed_alone false: every
branch under the gesture test clears it, and outside the test it was already
false. -/
theorem dispatch_released_menu_flag (gi : Option GameInfo) (now : Int)
    (t : AlliumD) :
    (dispatch gi now (KeyEvent.released Key.menu) t).1.is_menu_pressed_alone
      = false := by
  by_cases hf : t.is_menu_pressed_alone = true
  · by_cases hc : (is_ingame gi && noOtherKeyHeld t.keys) = true
    · cases gi with
      | none => simp [dispatch, hf, hc]
      | some g =>
        cases hm : t.menu with
        | some u => simp [dispatch, hf, hc, hm]
        | none =>
          by_cases hb : g.has_menu = true
          · simp [dispatch, hf, hc, hm, hb]
          · simp [dispatch, hf, hc, hm, hb]
    · simp [dispatch, hf, hc]
  · simp [dispatch, hf]

/-- Dispatch of a Pressed event for any key but Menu leaves the recognizer
flag unchanged. -/
theorem dispatch_pressed_flag (gi : Option GameInfo) (now : Int) (k : Key)
    (t : AlliumD) (hk : ¬ k = Key.menu) :
    (dispatch gi now (KeyEvent.pressed k) t).1.is_menu_pressed_alone
      = t.is_menu_pressed_alone := by
  cases k with
  | menu => exact absurd rfl hk
  | start => rfl
  | select => rfl
  | volUp =>
    simp only [dispatch]
    split <;> rfl
  | volDown =>
    simp only [dispatch]
    split <;> rfl
  | l2 =>
    simp only [dispatch]
    split
    · rfl
    · split <;> rfl
  | r2 =>
    simp only [dispatch]
    split
    · rfl
    · split <;> rfl
  | power => rfl
  | a => rfl
  | b => rfl

/-- The recognizer phase clears the flag on any Pressed other than Menu. -/
theorem recognizerUpdate_pressed_other (k : Key) (s : AlliumD)
    (hk : ¬ k = Key.menu) :
    (recognizerUpdate (KeyEvent.pressed k) s).is_menu_pressed_alone = false := by
  cases k with
  | menu => exact absurd rfl hk
  | start => rfl
  | select => rfl
  | volUp => rfl
  | volDown => rfl
  | l2 => rfl
  | r2 => rfl
  | power => rfl
  | a => rfl
  | b => rfl

/-- The three outcomes of the Released(Menu) gesture at the dispatch level,
when the flag is set and no key other than Menu is held: with the menu slot
empty and has_menu, main is stopped and the menu spawned; with the slot
empty and no has_menu, nothing happens; with the slot occupied, the menu
child is terminated and waited for (the slot itself stays occupied). -/
theorem dispatch_released_menu_cases (gi : GameInfo) (now : Int) (t : AlliumD)
    (hflag : t.is_menu_pressed_alone = true)
    (hall : noOtherKeyHeld t.keys = true) :
    (t.menu = none → gi.has_menu = true →
        (dispatch (some gi) now (KeyEvent.released Key.menu) t).2
            = [Action.sigstopMain, Action.spawnMenu]
          ∧ (dispatch (some gi) now (KeyEvent.released Key.menu) t).1.menu
            = some ()
          ∧ (dispatch (some gi) now (KeyEvent.released Key.menu) t).1.main
            = sigstopEffect t.main)
      ∧ (t.menu = none → gi.has_menu = false →
          (dispatch (some gi) now (KeyEvent.released Key.menu) t).2 = []
            ∧ (dispatch (some gi) now (KeyEvent.released Key.menu) t).1.menu
              = none
            ∧ (dispatch (some gi) now (KeyEvent.released Key.menu) t).1.main
              = t.main)
      ∧ (t.menu = some () →
          (dispatch (some gi) now (KeyEvent.released Key.menu) t).2
              = [Action.sigtermMenu, Action.waitMenu]
            ∧ (dispatch (some gi) now (KeyEvent.released Key.menu) t).1.menu
              = some ()
            ∧ (dispatch (some gi) now (KeyEvent.released Key.menu) t).1.main
              = t.main) := by
  refine ⟨?_, ?_, ?_⟩
  · intro hm hb
    simp [dispatch, hflag, is_ingame, hall, hm, hb]
  · intro hm hb
    simp [dispatch, hflag, is_ingame, hall, hm, hb]
  · intro hm
    simp [dispatch, hflag, is_ingame, hall, hm]

/-! Claim theorems. -/

/-- C1: In every reachable live daemon state (platforms with suspend/resume),
a menu process existing implies the main process is Suspended — never both
Running — and the menu being Absent implies the main process is Running. At
most one main and at most one menu process exist at any time: this part is
carried by the state type itself, which — like the source struct AlliumD —
has exactly one main slot and one optional menu slot. -/
theorem menu_main_exclusion (s : AlliumD) (h : Reachable s)
    (halive : s.shutdown = false) :
    (s.menu.isSome → s.main = MainStatus.suspended)
      ∧ (s.menu = none → s.main = MainStatus.running) := by
  obtain ⟨_, h1, h2⟩ := reachable_inv s h halive
  exact ⟨h1, h2⟩

/-- Witness for menu_main_exclusion at the freshly started daemon. -/
theorem menu_main_exclusion_witness :
    (AlliumD.new (AlliumDState.new 0)).shutdown = false
      ∧ (((AlliumD.new (AlliumDState.new 0)).menu.isSome →
            (AlliumD.new (AlliumDState.new 0)).main = MainStatus.suspended)
          ∧ ((AlliumD.new (AlliumDState.new 0)).menu = none →
            (AlliumD.new (AlliumDState.new 0)).main = MainStatus.running)) :=
  ⟨rfl, menu_main_exclusion (AlliumD.new (AlliumDState.new 0))
    (Reachable.init (AlliumDState.new 0)) rfl⟩

/-- C2: Handling Released(Menu) leaves is_menu_pressed_alone false in all
cases; and when the flag was set, the daemon is in-game (the game record
exists), and no key other than Menu is held at that instant, the menu
overlay is toggled: if the slot is empty and the record has has_menu, main
is sent the suspend signal and the menu executable spawned; if the record
lacks has_menu the open is a no-op; if a menu is present it is terminated
(graceful-terminate then wait — the slot empties only when the event loop
reaps it). -/
theorem released_menu_toggle (gi : GameInfo) (now : Int) (s : AlliumD) :
    (handle_key_event (some gi) now (KeyEvent.released Key.menu)
        s).1.is_menu_pressed_alone = false
      ∧ (s.is_menu_pressed_alone = true →
          (∀ k, ¬ k = Key.menu → s.keys k = false) →
          ((s.menu = none → gi.has_menu = true →
              (handle_key_event (some gi) now (KeyEvent.released Key.menu) s).2
                  = [Action.sigstopMain, Action.spawnMenu]
                ∧ (handle_key_event (some gi) now
                    (KeyEvent.released Key.menu) s).1.menu = some ()
                ∧ (s.main = MainStatus.running →
                    (handle_key_event (some gi) now
                      (KeyEvent.released Key.menu) s).1.main
                      = MainStatus.suspended))
            ∧ (s.menu = none → gi.has_menu = false →
                (handle_key_event (some gi) now (KeyEvent.released Key.menu) s).2
                    = []
                  ∧ (handle_key_event (some gi) now
                      (KeyEvent.released Key.menu) s).1.menu = none
                  ∧ (handle_key_event (some gi) now
                      (KeyEvent.released Key.menu) s).1.main = s.main)
            ∧ (s.menu = some () →
                (handle_key_event (some gi) now (KeyEvent.released Key.menu) s).2
                    = [Action.sigtermMenu, Action.waitMenu]
                  ∧ (handle_key_event (some gi) now
                      (KeyEvent.released Key.menu) s).1.menu = some ()
                  ∧ (handle_key_event (some gi) now
                      (KeyEvent.released Key.menu) s).1.main = s.main))) := by
  constructor
  · exact dispatch_released_menu_flag (some gi) now
      (keysUpdate (KeyEvent.released Key.menu)
        (recognizerUpdate (KeyEvent.released Key.menu) s))
  · intro hflag hkeys
    have hall : noOtherKeyHeld
        ((keysUpdate (KeyEvent.released Key.menu)
          (recognizerUpdate (KeyEvent.released Key.menu) s)).keys) = true := by
      show noOtherKeyHeld (Function.update s.keys Key.menu false) = true
      exact noOtherKeyHeld_of s.keys hkeys
    have hflag2 : (keysUpdate (KeyEvent.released Key.menu)
        (recognizerUpdate (KeyEvent.released Key.menu) s)).is_menu_pressed_alone
          = true := hflag
    have h := dispatch_released_menu_cases gi now
      (keysUpdate (KeyEvent.released Key.menu)
        (recognizerUpdate (KeyEvent.released Key.menu) s)) hflag2 hall
    refine ⟨?_, ?_, ?_⟩
    · intro hm hb
      obtain ⟨ha, hb2, hc⟩ := h.1 hm hb
      refine ⟨ha, hb2, ?_⟩
      intro hrun
      have h3 : sigstopEffect ((keysUpdate (KeyEvent.released Key.menu)
          (recognizerUpdate (KeyEvent.released Key.menu) s)).main)
            = MainStatus.suspended := by
        rw [show (keysUpdate (KeyEvent.released Key.menu)
          (recognizerUpdate (KeyEvent.released Key.menu) s)).main = s.main
          from rfl, hrun]
        rfl
      exact hc.trans h3
    · intro hm hb
      exact h.2.1 hm hb
    · intro hm
      exact h.2.2 hm

/-- Witness for released_menu_toggle: in-game with has_menu, flag set, no
other key held — the menu is spawned and main suspended. -/
theorem released_menu_toggle_witness :
    (handle_key_event (some ⟨"x", true, 0⟩) 0 (KeyEvent.released Key.menu)
        { AlliumD.new (AlliumDState.new 0) with is_menu_pressed_alone := true }).2
        = [Action.sigstopMain, Action.spawnMenu]
      ∧ (handle_key_event (some ⟨"x", true, 0⟩) 0 (KeyEvent.released Key.menu)
          { AlliumD.new (AlliumDState.new 0) with
              is_menu_pressed_alone := true }).1.main = MainStatus.suspended := by
  have h := (released_menu_toggle ⟨"x", true, 0⟩ 0
      { AlliumD.new (AlliumDState.new 0) with is_menu_pressed_alone := true }).2
    rfl (fun k _ => rfl)
  exact ⟨(h.1 rfl rfl).1, (h.1 rfl rfl).2.2 rfl⟩

/-- C3 counterexample: from the fresh daemon press VolUp (so a key other
than Menu is down), then press Menu — is_menu_pressed_alone is nevertheless
set to true. The source sets the flag on every Pressed(Menu) without
consulting the key map, so it is not set "exactly when Menu is pressed while
no other key is currently down". -/
theorem menu_alone_cex :
    ((handle_key_event none 0 (KeyEvent.pressed Key.volUp)
        (AlliumD.new (AlliumDState.new 0))).1.keys Key.volUp = true)
      ∧ ((handle_key_event none 0 (KeyEvent.pressed Key.menu)
          ((handle_key_event none 0 (KeyEvent.pressed Key.volUp)
            (AlliumD.new (AlliumDState.new 0))).1)).1.is_menu_pressed_alone
        = true) :=
  ⟨by decide, by decide⟩

/-- C3 (amended): is_menu_pressed_alone is set true whenever Menu is pressed
(whatever else is held), is cleared by any other key being pressed before
Menu is released, and is never true after handling of Released(Menu)
completes; in particular Pressed(Menu), Pressed(VolUp), Released(Menu)
while in-game with the menu absent yields no menu toggle. -/
theorem menu_alone_rules (gi : Option GameInfo) (now : Int) (s : AlliumD)
    (k : Key) (hk : ¬ k = Key.menu) :
    (handle_key_event gi now (KeyEvent.pressed Key.menu)
        s).1.is_menu_pressed_alone = true
      ∧ (handle_key_event gi now (KeyEvent.pressed k)
          s).1.is_menu_pressed_alone = false
      ∧ (handle_key_event gi now (KeyEvent.released Key.menu)
          s).1.is_menu_pressed_alone = false
      ∧ (handle_key_event (some ⟨"x", true, 0⟩) 0 (KeyEvent.released Key.menu)
          (handle_key_event (some ⟨"x", true, 0⟩) 0 (KeyEvent.pressed Key.volUp)
            (handle_key_event (some ⟨"x", true, 0⟩) 0 (KeyEvent.pressed Key.menu)
              (AlliumD.new (AlliumDState.new 0))).1).1).1.menu = none := by
  refine ⟨rfl, ?_, ?_, by decide⟩
  · have h2 := dispatch_pressed_flag gi now k
      (keysUpdate (KeyEvent.pressed k) (recognizerUpdate (KeyEvent.pressed k) s))
      hk
    have h3 := recognizerUpdate_pressed_other k s hk
    exact h2.trans h3
  · exact dispatch_released_menu_flag gi now
      (keysUpdate (KeyEvent.released Key.menu)
        (recognizerUpdate (KeyEvent.released Key.menu) s))

/-- Witness for menu_alone_rules at VolUp. -/
theorem menu_alone_rules_witness :
    (¬ Key.volUp = Key.menu)
      ∧ (handle_key_event none 0 (KeyEvent.pressed Key.volUp)
          (AlliumD.new (AlliumDState.new 0))).1.is_menu_pressed_alone = false :=
  ⟨by decide,
    (menu_alone_rules none 0 (AlliumD.new (AlliumDState.new 0)) Key.volUp
      (by decide)).2.1⟩

/-- C4: When the main process exits on its own while the daemon is not
terminating and a game record exists, the event-loop arm records the play
time against the record exactly once, deletes the record exactly once, and
respawns main exactly once (the explicit trace holds one occurrence of
each); the main slot is again Running afterwards — never left Absent outside
daemon shutdown — and the menu slot is untouched. -/
theorem main_exit_respawn (s : AlliumD) (gi : Option GameInfo) (g : GameInfo)
    (hterm : s.is_terminating = false) (hgi : gi = some g) :
    (stepf s (Event.mainExited gi)).1.main = MainStatus.running
      ∧ (stepf s (Event.mainExited gi)).1.menu = s.menu
      ∧ (stepf s (Event.mainExited gi)).2
          = [Action.addPlayTime g.path g.play_time, Action.deleteGameInfo,
             Action.spawnMain] := by
  subst hgi
  simp only [stepf]
  split
  · next hcond =>
    rw [hterm] at hcond
    exact absurd hcond (by decide)
  · exact ⟨rfl, rfl, rfl⟩

/-- Witness for main_exit_respawn at the fresh daemon with a game record. -/
theorem main_exit_respawn_witness :
    (stepf (AlliumD.new (AlliumDState.new 0))
        (Event.mainExited (some ⟨"x", false, 3⟩))).1.main = MainStatus.running
      ∧ (stepf (AlliumD.new (AlliumDState.new 0))
          (Event.mainExited (some ⟨"x", false, 3⟩))).2
        = [Action.addPlayTime "x" 3, Action.deleteGameInfo, Action.spawnMain] :=
  ⟨(main_exit_respawn (AlliumD.new (AlliumDState.new 0))
      (some ⟨"x", false, 3⟩) ⟨"x", false, 3⟩ rfl rfl).1,
   (main_exit_respawn (AlliumD.new (AlliumDState.new 0))
      (some ⟨"x", false, 3⟩) ⟨"x", false, 3⟩ rfl rfl).2.2⟩

/-- C5: Every quit path funnels into handle_quit (conjuncts four to eight:
the two termination signals, Autorepeat(Power), the low-battery tick while
not charging, and the auto-sleep timeout while not charging), and
handle_quit saves the state with a fresh timestamp as its first action and
shuts the platform down as its last; when in-game with a menu active the
full trace is save, record play time, kill menu, resume main (SIGCONT before
SIGTERM — a suspended process must be resumed before it can act on the
terminate), terminate main, block until main is reaped, shut down. -/
theorem quit_sequence (gi : Option GameInfo) (now : Int) (s : AlliumD) :
    (handle_quit gi now s).2.head?
        = some (Action.saveState { s.state with time := now })
      ∧ (handle_quit gi now s).2.getLast? = some Action.shutdownPlatform
      ∧ (∀ g, gi = some g → s.menu = some () →
          (handle_quit gi now s).2
            = [Action.saveState { s.state with time := now },
               Action.addPlayTime g.path g.play_time, Action.killMenu,
               Action.sigcontMain, Action.sigtermMain, Action.waitMain,
               Action.shutdownPlatform])
      ∧ stepf s (Event.sigintRecv gi now) = handle_quit gi now s
      ∧ stepf s (Event.sigtermRecv gi now) = handle_quit gi now s
      ∧ handle_key_event gi now (KeyEvent.autorepeat Key.power) s
          = handle_quit gi now { s with is_terminating := true }
      ∧ (∀ pct charging, pct ≤ BATTERY_SHUTDOWN_THRESHOLD → charging = false →
          stepf s (Event.batteryTick pct charging gi now) = handle_quit gi now s)
      ∧ (∀ charging, charging = false →
          stepf s (Event.autoSleep charging gi now) = handle_quit gi now s) := by
  refine ⟨rfl, ?_, ?_, rfl, rfl, rfl, ?_, ?_⟩
  · cases gi <;> cases hm : s.menu <;>
      simp [handle_quit, update_play_time, is_ingame, hm]
  · intro g hg hm
    subst hg
    simp [handle_quit, update_play_time, is_ingame, hm]
  · intro pct charging h1 h2
    subst h2
    simp only [stepf]
    split
    · rfl
    · next hcond => exact absurd (by simp [h1]) hcond
  · intro charging h2
    subst h2
    simp only [stepf]
    split
    · rfl
    · next hcond => exact absurd (by simp) hcond

/-- Witness for quit_sequence: in-game, menu active, battery at 3 percent
and not charging. -/
theorem quit_sequence_witness :
    (handle_quit (some ⟨"x", true, 2⟩) 9
        { AlliumD.new (AlliumDState.new 5) with
            menu := some (), main := MainStatus.suspended }).2
      = [Action.saveState ⟨9, 0, 50⟩, Action.addPlayTime "x" 2, Action.killMenu,
         Action.sigcontMain, Action.sigtermMain, Action.waitMain,
         Action.shutdownPlatform]
      ∧ stepf { AlliumD.new (AlliumDState.new 5) with
            menu := some (), main := MainStatus.suspended }
          (Event.batteryTick 3 false (some ⟨"x", true, 2⟩) 9)
        = handle_quit (some ⟨"x", true, 2⟩) 9
            { AlliumD.new (AlliumDState.new 5) with
                menu := some (), main := MainStatus.suspended } :=
  ⟨(quit_sequence (some ⟨"x", true, 2⟩) 9
      { AlliumD.new (AlliumDState.new 5) with
          menu := some (), main := MainStatus.suspended }).2.2.1
    ⟨"x", true, 2⟩ rfl rfl,
   (quit_sequence (some ⟨"x", true, 2⟩) 9
      { AlliumD.new (AlliumDState.new 5) with
          menu := some (), main := MainStatus.suspended }).2.2.2.2.2.2.1
    3 false (by decide) rfl⟩

/-- C6: Any sequence of volume and brightness adjustments — with arbitrary
deltas, so in particular the plus-minus one and plus-minus five the daemon
dispatches — applied to a daemon state whose volume is in 0..=20 and whose
brightness is in 0..=100 keeps both in range: each operation clamps before
storing, so no operation can push either value outside. -/
theorem adjust_sequences_clamped (ops : List Adjust) (s : AlliumD)
    (h1 : 0 ≤ s.state.volume) (h2 : s.state.volume ≤ 20)
    (h3 : s.state.brightness ≤ 100) :
    0 ≤ (ops.foldl applyAdjust s).state.volume
      ∧ (ops.foldl applyAdjust s).state.volume ≤ 20
      ∧ (ops.foldl applyAdjust s).state.brightness ≤ 100 := by
  induction ops generalizing s with
  | nil => exact ⟨h1, h2, h3⟩
  | cons op rest ih =>
    cases op with
    | vol a =>
      have hr := add_volume_range a s
      exact ih ((add_volume a s).1) hr.1 hr.2 h3
    | bright a =>
      have hb := add_brightness_range a s
      exact ih ((add_brightness a s).1) h1 h2 hb

/-- Witness for adjust_sequences_clamped at the default state with one
volume step up and one brightness step down. -/
theorem adjust_sequences_clamped_witness :
    (0 ≤ (AlliumD.new (AlliumDState.new 0)).state.volume
        ∧ (AlliumD.new (AlliumDState.new 0)).state.volume ≤ 20
        ∧ (AlliumD.new (AlliumDState.new 0)).state.brightness ≤ 100)
      ∧ (0 ≤ ([Adjust.vol 1, Adjust.bright (-5)].foldl applyAdjust
            (AlliumD.new (AlliumDState.new 0))).state.volume
        ∧ ([Adjust.vol 1, Adjust.bright (-5)].foldl applyAdjust
            (AlliumD.new (AlliumDState.new 0))).state.volume ≤ 20
        ∧ ([Adjust.vol 1, Adjust.bright (-5)].foldl applyAdjust
            (AlliumD.new (AlliumDState.new 0))).state.brightness ≤ 100) :=
  ⟨⟨by decide, by decide, by decide⟩,
   adjust_sequences_clamped [Adjust.vol 1, Adjust.bright (-5)]
     (AlliumD.new (AlliumDState.new 0)) (by decide) (by decide) (by decide)⟩

/-- C7 counterexample: store a state whose timestamp is one and a half
seconds past the epoch and load it with the clock at zero — the spawned
clock-set carries one second exactly (the seconds-truncated formatted time),
which differs from the stored timestamp, so the clock is not advanced to
exactly the stored timestamp. -/
theorem clock_advance_cex :
    AlliumDState.load (AlliumDState.save ⟨1500000000, 3, 40⟩) 0
        = (⟨1500000000, 3, 40⟩, [Action.setClock 1000000000])
      ∧ ¬ (1000000000 : Int) = (1500000000 : Int) :=
  ⟨by decide, by decide⟩

/-- C7 (amended): save then load round-trips volume, brightness and the
timestamp field exactly; when the stored timestamp is later than the current
clock the system clock is set — via a spawned date command — to the stored
timestamp truncated to whole seconds (exactly the stored instant only when
it has no sub-second part), and otherwise no clock action is taken. -/
theorem save_load_roundtrip (s : AlliumDState) (now : Int) :
    (AlliumDState.load (AlliumDState.save s) now).1 = s
      ∧ (now < s.time →
          (AlliumDState.load (AlliumDState.save s) now).2
            = [Action.setClock (truncSec s.time)])
      ∧ (s.time ≤ now →
          (AlliumDState.load (AlliumDState.save s) now).2 = []) := by
  refine ⟨?_, ?_, ?_⟩
  · simp only [AlliumDState.load, AlliumDState.save]
    split <;> rfl
  · intro h
    simp only [AlliumDState.load, AlliumDState.save]
    rw [if_pos h]
  · intro h
    simp only [AlliumDState.load, AlliumDState.save]
    rw [if_neg (by omega)]

/-- Witness for save_load_roundtrip with a future stored timestamp. -/
theorem save_load_roundtrip_witness :
    ((0 : Int) < (1500000000 : Int))
      ∧ (AlliumDState.load (AlliumDState.save ⟨1500000000, 3, 40⟩) 0).1
          = ⟨1500000000, 3, 40⟩
      ∧ (AlliumDState.load (AlliumDState.save ⟨1500000000, 3, 40⟩) 0).2
          = [Action.setClock (truncSec 1500000000)] :=
  ⟨by decide, (save_load_roundtrip ⟨1500000000, 3, 40⟩ 0).1,
    (save_load_roundtrip ⟨1500000000, 3, 40⟩ 0).2.1 (by decide)⟩

/-- C8: load with no state file present returns the defaults — volume 0,
brightness 50, timestamp now — with no side effect; load with a present but
unreadable or unparseable state file removes the file and returns the same
defaults. The parse failure is consumed inside load (the branch returns
normally in every case), never propagated as a fatal error. -/
theorem load_missing_or_corrupt (now : Int) :
    AlliumDState.load FileContents.absent now
        = ({ time := now, volume := 0, brightness := 50 }, [])
      ∧ AlliumDState.load FileContents.unparseable now
        = ({ time := now, volume := 0, brightness := 50 },
           [Action.removeStateFile])
      ∧ AlliumDState.load FileContents.unreadable now
        = ({ time := now, volume := 0, brightness := 50 },
           [Action.removeStateFile])
      ∧ AlliumDState.new now
        = { time := now, volume := 0, brightness := 50 } :=
  ⟨rfl, rfl, rfl, rfl⟩

/-- C9 counterexample: signaling a child that has already exited and been
reaped is tolerated — the call returns Ok — but it emits no log message at
all (the source signal function contains no log call), so the condition is
not a logged one as the claim states. -/
theorem signal_dead_cex :
    signal ⟨1, ProcStatus.reaped⟩ Signal.sigterm = Except.ok []
      ∧ ¬ ∃ msgs, signal ⟨1, ProcStatus.reaped⟩ Signal.sigterm = Except.ok msgs
            ∧ ¬ msgs = [] := by
  refine ⟨rfl, ?_⟩
  rintro ⟨msgs, hm, hne⟩
  have h0 : (Except.ok [] : Except Unit (List String)) = Except.ok msgs := hm
  injection h0 with h0
  exact hne h0.symm

/-- C9 (amended): sending a suspend, resume or graceful-terminate signal to
a child that has already exited is tolerated silently on every signaling
path — all call sites go through the signal helper: when the handle shows
the child reaped, the id lookup yields none and the kill is skipped; a
not-yet-reaped zombie still has its process-table entry, so the kill
succeeds as a harmless no-op — and the condition is never escalated to a
fatal error, but nothing is logged for it. -/
theorem signal_dead_tolerated (c : Child) (sg : Signal)
    (h : c.status = ProcStatus.zombie ∨ c.status = ProcStatus.reaped) :
    signal c sg = Except.ok [] := by
  rcases h with h | h <;> simp [signal, Child.id, kill, pid_exists, h]

/-- Witness for signal_dead_tolerated at a zombie child. -/
theorem signal_dead_tolerated_witness :
    ((⟨7, ProcStatus.zombie⟩ : Child).status = ProcStatus.zombie
        ∨ (⟨7, ProcStatus.zombie⟩ : Child).status = ProcStatus.reaped)
      ∧ signal ⟨7, ProcStatus.zombie⟩ Signal.sigcont = Except.ok [] :=
  ⟨Or.inl rfl,
    signal_dead_tolerated ⟨7, ProcStatus.zombie⟩ Signal.sigcont (Or.inl rfl)⟩

/-- C10: load performs no range validation — a parseable state file is
returned exactly as stored even when volume and brightness are outside
0..=20 and 0..=100; at startup the loaded values go straight to the
platform set_volume and set_brightness calls; and a subsequent brightness
adjustment sends the stored u8 through the `as i8` conversion before
clamping: stored brightness 200 plus 5 yields 0 (200 as i8 is -56, the sum
-51 clamps to 0), not the 100 a clamp of 205 would give. -/
theorem load_no_range_validation (s : AlliumDState) (now : Int) :
    (AlliumDState.load (FileContents.parseable s) now).1 = s
      ∧ startup_actions (AlliumDState.load (FileContents.parseable s) now).1
          = [Action.setVolume s.volume, Action.setBrightness s.brightness]
      ∧ (add_brightness 5
          { AlliumD.new (AlliumDState.new 0) with
              state := ⟨0, 1000, 200⟩ }).1.state.brightness = 0
      ∧ (add_brightness 5
          { AlliumD.new (AlliumDState.new 0) with
              state := ⟨0, 1000, 200⟩ }).2 = [Action.setBrightness 0] := by
  have h1 : (AlliumDState.load (FileContents.parseable s) now).1 = s := by
    simp only [AlliumDState.load]
    split <;> rfl
  refine ⟨h1, ?_, by decide, by decide⟩
  rw [h1]
  rfl

end Allium

